import Mathlib

/-!
Shallow embedding of the MentorIQ backend's registration field extractors and
response-composition policy, translated from the Python sources
(src/app.py, src/src/services/ollama_service.py,
src/src/services/groq_service.py, src/main-minimal.py).

Strings are treated as their lists of characters (`String.data`); the ASCII
fragment is modelled, which covers every literal the sources match against.
The three fixed regular expressions are embedded directly with Python `re`
semantics: leftmost match, greedy quantifiers with backtracking, and
`re.IGNORECASE` exactly where the source passes it.
-/

namespace MentorIQ

/-- ASCII uppercase letter, the class `[A-Z]`. -/
def isUpperA (c : Char) : Bool := 'A' ≤ c && c ≤ 'Z'

/-- ASCII lowercase letter, the class `[a-z]`. -/
def isLowerA (c : Char) : Bool := 'a' ≤ c && c ≤ 'z'

/-- ASCII letter, the class `[A-Za-z]`. -/
def isAlphaA (c : Char) : Bool := isUpperA c || isLowerA c

/-- ASCII digit, the class `[0-9]`. -/
def isDigitA (c : Char) : Bool := '0' ≤ c && c ≤ '9'

/-- Python regex `\s` restricted to ASCII: space, tab, newline, carriage
return, vertical tab, form feed. -/
def isSpaceP (c : Char) : Bool :=
  c == ' ' || c == '\t' || c == '\n' || c == '\r' || c == '\x0b' || c == '\x0c'

/-- Python regex `\w` restricted to ASCII (used by the `\b` boundary). -/
def isWordP (c : Char) : Bool := isAlphaA c || isDigitA c || c == '_'

/-- Python `str.lower` on an ASCII character. -/
def lowerP (c : Char) : Char :=
  if isUpperA c then Char.ofNat (c.toNat + 32) else c

/-- Python `str.lower` over a whole string (as a character list). -/
def lowerL (s : List Char) : List Char := s.map lowerP

/-- Python's substring test `needle in hay`. -/
def lcontains (needle : List Char) : List Char → Bool
  | [] => needle.isEmpty
  | c :: rest => needle.isPrefixOf (c :: rest) || lcontains needle rest

/-- Case-insensitive literal prefix test (ASCII case folding), used for the
alternation of trigger phrases under `re.IGNORECASE`. -/
def icStarts : List Char → List Char → Bool
  | [], _ => true
  | _ :: _, [] => false
  | a :: pa, b :: sb => (lowerP a == lowerP b) && icStarts pa sb

/-- Python `str.strip()` over ASCII whitespace. -/
def pyStrip (s : List Char) : List Char :=
  ((s.dropWhile isSpaceP).reverse.dropWhile isSpaceP).reverse

/-! ## extract_name

The source (identical in app.py, groq_service.py, ollama_service.py and
main-minimal.py) tries two patterns with `re.search(pattern, text,
re.IGNORECASE)`, in order:

  1. `(?:i'm|i am|my name is|call me)\s+([a-zA-Z\s]+)`
  2. `^([A-Z][a-z]+(?:\s+[A-Z][a-z]+)*)$`

and post-filters each candidate group with `strip()`, `len(name) < 50` and
`re.match(r'^[A-Za-z\s]+$', name)`. Note that IGNORECASE applies to both
patterns, so in the second one `[A-Z]` and `[a-z]` both mean any letter. -/

/-- The four trigger literals of the first name pattern. At any text
position at most one of them can match, so alternation order is immaterial. -/
def name_triggers : List (List Char) :=
  ["i'm".data, "i am".data, "my name is".data, "call me".data]

/-- Membership in the capture class `[a-zA-Z\s]` of the first name pattern. -/
def isNameC (c : Char) : Bool := isAlphaA c || isSpaceP c

/-- Attempt of the trigger-phrase pattern anchored at the current position:
a literal matched case-insensitively, then greedy `\s+`, then the greedy
group `([a-zA-Z\s]+)`. Returns the group. With `r` the maximal run of
letters-or-whitespace after the literal and `w` its maximal whitespace
prefix, Python's backtracking yields: no match when `w` is empty; the rest
of `r` past `w` when `r` is longer; otherwise (all whitespace) the last
whitespace character, provided `w` has at least two characters. -/
def nameGroupAt (s : List Char) : Option (List Char) :=
  match name_triggers.find? (fun l => icStarts l s) with
  | none => none
  | some l =>
    let rest := s.drop l.length
    let r := rest.takeWhile isNameC
    let w := rest.takeWhile isSpaceP
    if w.length == 0 then none
    else if w.length < r.length then some (r.drop w.length)
    else if 2 ≤ w.length then some (w.drop (w.length - 1))
    else none

/-- `re.search` for the trigger-phrase pattern: leftmost position whose
anchored attempt succeeds. -/
def searchNameGroup : List Char → Option (List Char)
  | [] => none
  | c :: rest =>
    match nameGroupAt (c :: rest) with
    | some g => some g
    | none => searchNameGroup rest

/-- Single pass for the body of the whole-line pattern
`[A-Z][a-z]+(?:\s+[A-Z][a-z]+)*` under IGNORECASE: words of at least two
letters separated by runs of whitespace, ending inside a word. `wl` is the
length of the current letter run (0 right after whitespace). The caller
guarantees the first character is a letter. -/
def wordRun : List Char → Nat → Bool
  | [], wl => decide (2 ≤ wl)
  | c :: rest, wl =>
    if isAlphaA c then wordRun rest (wl + 1)
    else if isSpaceP c then
      if wl == 0 then wordRun rest 0
      else decide (2 ≤ wl) && wordRun rest 0
    else false

/-- The anchored whole-line pattern `^([A-Z][a-z]+(?:\s+[A-Z][a-z]+)*)$`
under `re.IGNORECASE`; without `re.MULTILINE`, `$` also matches just before
one final newline. Returns the capture group (the whole body). -/
def wholeLineGroup (s : List Char) : Option (List Char) :=
  let body := if s.getLast? == some '\n' then s.dropLast else s
  match body with
  | [] => none
  | c :: _ => if isAlphaA c && wordRun body 0 then some body else none

/-- The post-filter `len(name) < 50 and re.match(r'^[A-Za-z\s]+$', name)`
applied to a stripped candidate. -/
def nameOk (n : List Char) : Bool :=
  decide (n.length < 50) && !n.isEmpty && n.all isNameC

/-- Second loop iteration of `extract_name`: the whole-line pattern and its
post-filter. -/
def nameFromWholeLine (text : List Char) : Option (List Char) :=
  match wholeLineGroup text with
  | some g => let n := pyStrip g; if nameOk n then some n else none
  | none => none

/-- The loop of `extract_name`: the trigger-phrase pattern is tried first;
a missing match or a rejected candidate falls through to the whole-line
pattern. -/
def extract_nameL (text : List Char) : Option (List Char) :=
  match searchNameGroup text with
  | some g =>
    let n := pyStrip g
    if nameOk n then some n else nameFromWholeLine text
  | none => nameFromWholeLine text

/-- `extract_name` of the sources (app.py lines 71-83 and its three
duplicates). -/
def extract_name (text : String) : Option String :=
  (extract_nameL text.data).map String.mk

/-! ## extract_email

The source regex is `\b[A-Za-z0-9._%+-]+@[A-Za-z0-9.-]+\.[A-Z|a-z]{2,}\b`
with `re.search` and no flags. Note the TLD class `[A-Z|a-z]` literally
contains the bar character. The embedding reproduces the engine exactly:
positions are tried left to right; at a position the boundary must hold,
the greedy local part must be followed by `@` (no shorter split can ever
succeed because `@` is outside the class), the greedy domain gives back
characters until a literal dot, and the greedy TLD gives back characters
until its trailing boundary holds, domain backtracking being outermost. -/

/-- The local-part class `[A-Za-z0-9._%+-]`. -/
def isLocalC (c : Char) : Bool :=
  isAlphaA c || isDigitA c || c == '.' || c == '_' || c == '%' || c == '+' || c == '-'

/-- The domain class `[A-Za-z0-9.-]`. -/
def isDomainC (c : Char) : Bool :=
  isAlphaA c || isDigitA c || c == '.' || c == '-'

/-- The TLD class `[A-Z|a-z]` of the source regex, bar included. -/
def isTldC (c : Char) : Bool := isUpperA c || isLowerA c || c == '|'

/-- The `\b` word boundary between two optional characters (`none` stands
for the edge of the string). -/
def wordB (prev next : Option Char) : Bool :=
  (prev.elim false isWordP) != (next.elim false isWordP)

/-- Greedy `{2,}` with a trailing `\b`, working on the reversed candidate
run: `rt` is the reversed run still kept and `next` the character right
after it. Give back characters from the right (the head of `rt`) until the
boundary after the kept part holds, failing below two characters. Returns
the kept part in source order. -/
def tldBackRev : List Char → Option Char → Option (List Char)
  | [], _ => none
  | c :: rest, next =>
    if decide (2 ≤ rest.length + 1) && wordB (some c) next then some ((c :: rest).reverse)
    else tldBackRev rest (some c)

/-- `[A-Z|a-z]{2,}\b` at the head of `s`: the consumed prefix. -/
def tldTake (s : List Char) : Option (List Char) :=
  let t := s.takeWhile isTldC
  tldBackRev t.reverse (s.drop t.length).head?

/-- Backtracking of `[A-Za-z0-9.-]+\.` then the TLD: `s` is the text after
the `@` and `ks` the candidate dot positions in descending order. On
success, returns the text the regex consumes after the `@`. -/
def emailTryDots (s : List Char) : List Nat → Option (List Char)
  | [] => none
  | k :: rest =>
    match tldTake (s.drop (k + 1)) with
    | some t => some (s.take (k + 1) ++ t)
    | none => emailTryDots s rest

/-- Positions of the dots the domain backtracking can stop at, rightmost
first: indices `k ≥ 1` inside the maximal domain-class run holding `'.'`
(index 0 is excluded because `+` needs a nonempty domain before the dot). -/
def dotIdxDesc (m : List Char) : List Nat :=
  ((List.range m.length).filter (fun k => k != 0 && m.getD k ' ' == '.')).reverse

/-- The whole email pattern anchored at the current position, `prev` being
the character before it (for the leading `\b`). -/
def emailMatchAt (prev : Option Char) (s : List Char) : Option (List Char) :=
  if wordB prev s.head? then
    let loc := s.takeWhile isLocalC
    if loc.isEmpty then none
    else
      match s.drop loc.length with
      | '@' :: afterAt =>
        (emailTryDots afterAt (dotIdxDesc (afterAt.takeWhile isDomainC))).map
          (fun dt => loc ++ '@' :: dt)
      | _ => none
  else none

/-- `re.search` for the email pattern: leftmost position whose anchored
attempt succeeds. -/
def emailSearch (prev : Option Char) : List Char → Option (List Char)
  | [] => none
  | c :: rest =>
    match emailMatchAt prev (c :: rest) with
    | some m => some m
    | none => emailSearch (some c) rest

/-- `extract_email` of the sources (app.py lines 85-88 and its duplicates). -/
def extract_email (text : String) : Option String :=
  (emailSearch none text.data).map String.mk

/-! ## extract_user_type -/

/-- The parent-indicating keyword list of the sources. -/
def parent_keywords : List String :=
  ["parent", "child", "kid", "son", "daughter", "family"]

/-- The mentor-indicating keyword list of the sources. -/
def mentor_keywords : List String :=
  ["mentor", "teach", "coach", "lead", "engineer", "help"]

/-- `extract_user_type` of the sources (app.py lines 90-99 and its
duplicates): lower-case the text, check the parent keywords first, then the
mentor keywords, by plain substring containment. -/
def extract_user_type (text : String) : Option String :=
  let tl := lowerL text.data
  if parent_keywords.any (fun kw => lcontains kw.data tl) then some "parent"
  else if mentor_keywords.any (fun kw => lcontains kw.data tl) then some "mentor"
  else none

/-! ## ResponseComposer

The composed value each service hands the HTTP layer. The services build a
dict with keys response / field_updates / suggestions / context; a branch
that omits field_updates is read back with `.get("field_updates", {})`, so
the absent key is modelled as the empty list. User state (the
`user_data` / `registration_data` dict) is an association list, `none`
standing for Python's `None`. -/

structure ResponseData where
  response : String
  field_updates : List (String × String)
  suggestions : List String
  context : String
deriving DecidableEq, Repr

/-- The caller-accumulated registration record. -/
abbrev UserData := List (String × String)

/-- Python `dict.get(k)` on an association list. -/
def pyGet (d : UserData) (k : String) : Option String :=
  (d.find? (fun p => p.1 == k)).map (fun p => p.2)

/-- Python truthiness of an optional string (`None` and `""` are falsy). -/
def truthy : Option String → Bool
  | some s => s != ""
  | none => false

/-- Python f-string rendering of an optional string (`None` prints as
"None"; unreachable in the guarded branches below). -/
def optStr : Option String → String
  | some s => s
  | none => "None"

/-- Python `email.split('@')[1] if '@' in email else ''`: the text between
the first `@` and the next one (or the end). -/
def domainOf (email : String) : String :=
  let cs := email.data
  if cs.contains '@' then
    String.mk (((cs.dropWhile (fun c => c != '@')).drop 1).takeWhile (fun c => c != '@'))
  else ""

/-! ### Fixed response texts (ollama_service.py registration branch) -/

/-- Greeting when a name was extracted this turn. -/
def nameAck (n : String) : String := "Hi " ++ n ++ "! Great to meet you. "

/-- Acknowledgement for an email whose domain contains ".edu". -/
def eduAck (domain : String) : String :=
  "I see you're from an educational institution (" ++ domain ++
  ") - that's wonderful! Many of our best mentors come from educational backgrounds. "

/-- Acknowledgement for a common consumer email domain. -/
def consumerAck : String := "Thanks for providing your email address! "

/-- Acknowledgement for any other email domain. -/
def otherDomainAck (domain : String) : String :=
  "Great to have you joining from " ++ domain ++ "! "

/-- The consumer domains checked by substring against the domain part. -/
def common_domains : List String := ["gmail", "yahoo", "hotmail", "outlook"]

/-- Role encouragement for a parent (ollama variant). -/
def parentEncouragement : String :=
  "Wonderful! We're excited to help you find the perfect FLL program for your child. Our platform connects families with amazing mentors and teams in your area, making it easy to discover opportunities that match your child's interests and your family's schedule."

/-- Role encouragement for a mentor (ollama variant). -/
def mentorEncouragement : String :=
  "Fantastic! We need more passionate mentors like you. Whether you're looking to start a new team or join an existing program, our platform provides the tools and community support to help you make a real impact on students' lives while saving you significant administrative time."

/-- Prompt for the name when nothing was extracted and none is on record. -/
def askNameMsg : String := "I'd love to know what I should call you! What's your name?"

/-- Prompt for the email, addressing the user by recorded name. -/
def askEmailMsg (n : String) : String :=
  "Thanks " ++ n ++ "! I'll need your email address to create your account. What email should I use?"

/-- Prompt for the parent-or-mentor role. -/
def askRoleMsg : String :=
  "Perfect! Just one more thing - are you here as a parent looking for programs for your child, or as a mentor wanting to help with FLL teams?"

/-- Generic filler when there is nothing to ask. -/
def genericHelpMsg : String :=
  "I'm here to help you complete your registration! You can either fill out the form on the left, or just tell me your information and I'll take care of it. What would you prefer?"

/-- Completion note appended when at least two record values are truthy. -/
def almostDoneMsg : String :=
  "\n\nYou're almost done! Once registration is complete, you'll have access to personalized program recommendations and our full platform features."

/-- The email acknowledgement branch of ollama_service.py lines 441-448:
".edu" substring first, then the consumer domains, then the neutral remark. -/
def emailAck (email : String) : String :=
  let domain := domainOf email
  if lcontains ".edu".data domain.data then eduAck domain
  else if common_domains.any (fun c => lcontains c.data domain.data) then consumerAck
  else otherDomainAck domain

/-- The role acknowledgement of ollama_service.py lines 453-456. -/
def roleAckText (t : String) : String :=
  if t == "parent" then parentEncouragement
  else if t == "mentor" then mentorEncouragement
  else ""

/-- The prompting-question chain of ollama_service.py lines 459-467, taken
when no field was extracted this turn. -/
def noExtractionReply (user_data : Option UserData) : String :=
  match user_data with
  | some d =>
    if !d.isEmpty && !truthy (pyGet d "name") then askNameMsg
    else if !d.isEmpty && truthy (pyGet d "name") && !truthy (pyGet d "email") then
      askEmailMsg (optStr (pyGet d "name"))
    else if !d.isEmpty && truthy (pyGet d "name") && truthy (pyGet d "email")
        && !truthy (pyGet d "userType") then askRoleMsg
    else genericHelpMsg
  | none => genericHelpMsg

/-- The completion note of ollama_service.py lines 470-473: appended when
`user_data` is truthy (non-None, non-empty) and at least two of its values
are truthy. -/
def completionSuffix (user_data : Option UserData) : String :=
  match user_data with
  | some d =>
    if !d.isEmpty && 2 ≤ (d.filter (fun p => p.2 != "")).length then almostDoneMsg
    else ""
  | none => ""

/-- MentorIQOllamaService._handle_registration_query (ollama_service.py
lines 419-475): extract the three fields, record the truthy ones in
field_updates, concatenate the applicable acknowledgements in the fixed
order name, email, role; fall back to the prompting chain when nothing was
extracted; append the completion note. -/
def handle_registration_query (query : String) (user_data : Option UserData) : ResponseData :=
  let name := extract_name query
  let email := extract_email query
  let user_type := extract_user_type query
  let acks :=
    (if truthy name then nameAck (optStr name) else "")
    ++ (if truthy email then emailAck (optStr email) else "")
    ++ (if truthy user_type then roleAckText (optStr user_type) else "")
  let base :=
    if !(truthy name || truthy email || truthy user_type) then noExtractionReply user_data
    else acks
  { response := base ++ completionSuffix user_data
    field_updates :=
      (if truthy name then [("name", optStr name)] else [])
      ++ (if truthy email then [("email", optStr email)] else [])
      ++ (if truthy user_type then [("userType", optStr user_type)] else [])
    suggestions := []
    context := "registration" }

/-! ### Groq service (groq_service.py) -/

/-- MentorIQGroqService._extract_fields_from_query (lines 329-348). -/
def extract_fields_from_query (query : String) : List (String × String) :=
  (if truthy (extract_name query) then [("name", optStr (extract_name query))] else [])
  ++ (if truthy (extract_email query) then [("email", optStr (extract_email query))] else [])
  ++ (if truthy (extract_user_type query) then [("userType", optStr (extract_user_type query))] else [])

/-- Educational-domain acknowledgement of the groq registration fallback. -/
def eduAckShort (domain : String) : String :=
  "I see you're from an educational institution (" ++ domain ++ ") - wonderful! "

/-- Parent encouragement of the groq registration fallback. -/
def parentShort : String :=
  "Wonderful! We're excited to help you find the perfect FLL program for your child."

/-- Mentor encouragement of the groq registration fallback. -/
def mentorShort : String :=
  "Fantastic! We need more passionate mentors like you."

/-- Generic filler of the groq registration fallback. -/
def genericHelpShort : String :=
  "I'm here to help you complete your registration! You can either fill out the form on the left, or just tell me your information and I'll take care of it."

/-- MentorIQGroqService._handle_registration_fallback (lines 477-513).
Note it never reads `user_data`. -/
def handle_registration_fallback (query : String) (user_data : Option UserData) : ResponseData :=
  let name := extract_name query
  let email := extract_email query
  let user_type := extract_user_type query
  let acks :=
    (if truthy name then nameAck (optStr name) else "")
    ++ (if truthy email then
          (let d := domainOf (optStr email)
           if lcontains ".edu".data d.data then eduAckShort d else consumerAck)
        else "")
    ++ (if truthy user_type then
          (if optStr user_type == "parent" then parentShort
           else if optStr user_type == "mentor" then mentorShort
           else "")
        else "")
  { response := if acks.isEmpty then genericHelpShort else acks
    field_updates :=
      (if truthy name then [("name", optStr name)] else [])
      ++ (if truthy email then [("email", optStr email)] else [])
      ++ (if truthy user_type then [("userType", optStr user_type)] else [])
    suggestions := []
    context := "registration" }

/-- Suggestion list of the parent-focused landing branches. -/
def parentSuggestions : List String :=
  ["Tell me about program costs and schedules", "How do I evaluate mentor quality?",
   "What age groups do you serve?", "Take me to registration"]

/-- Suggestion list of the mentor-focused landing branches. -/
def mentorSuggestions : List String :=
  ["How does the platform save time?", "What support do new mentors get?",
   "Show me mentor success stories", "Create my mentor profile"]

/-- Suggestion list of the default landing branches. -/
def defaultSuggestions : List String :=
  ["I'm a parent looking for programs", "I want to become a mentor",
   "Tell me about FLL and robotics", "How does your platform work?"]

/-- Parent response of the groq landing fallback (lines 432-436). -/
def parentLandingG : String :=
  "Perfect! I'd love to help you find the ideal FLL program for your child. MentorIQ connects families with amazing mentors and teams in your area.\n\nOur AI-powered platform makes it easy to discover programs that match your child's interests, your schedule, and your location. We focus on finding mentors who not only teach robotics skills but also inspire creativity and teamwork.\n\nTo get started with personalized recommendations, I'd suggest completing our quick registration. This helps us understand your specific needs and preferences."

/-- Mentor response of the groq landing fallback (lines 448-452). -/
def mentorLandingG : String :=
  "Wonderful! We're always excited to connect with passionate educators and professionals who want to make a difference in students' lives.\n\nMentorIQ is designed to save mentors like you 60%+ of administrative time through AI-powered tools, so you can focus on what matters most - inspiring and guiding your students.\n\nWhether you're looking to start your first FLL team or enhance an existing program, we provide the tools and community support you need."

/-- Default response of the groq landing fallback (lines 463-467). -/
def defaultLandingG : String :=
  "Welcome to MentorIQ! I'm here to help you discover amazing FLL programs and mentors.\n\nWhether you're a parent looking for the perfect robotics program for your child, or a mentor ready to inspire the next generation of innovators, our AI-powered platform makes connections simple and effective.\n\nWhat brings you to MentorIQ today?"

/-- MentorIQGroqService._handle_landing_fallback (lines 426-475). -/
def handle_landing_fallback (query : String) : ResponseData :=
  let ql := lowerL query.data
  if ["parent", "child", "kid"].any (fun w => lcontains w.data ql) then
    { response := parentLandingG, field_updates := [],
      suggestions := parentSuggestions, context := "landing" }
  else if ["mentor", "teach", "engineer"].any (fun w => lcontains w.data ql) then
    { response := mentorLandingG, field_updates := [],
      suggestions := mentorSuggestions, context := "landing" }
  else
    { response := defaultLandingG, field_updates := [],
      suggestions := defaultSuggestions, context := "landing" }

/-- MentorIQGroqService._emergency_fallback (lines 515-522). -/
def emergency_fallback (query : String) (page_context : String) : ResponseData :=
  { response := "I'm here to help! Could you tell me more about what you're looking for?"
    suggestions := ["Find programs for my child", "I want to become a mentor"]
    context := page_context
    field_updates := [] }

/-- MentorIQGroqService._generate_fallback_response (lines 411-424). -/
def generate_fallback_response (query : String) (page_context : String)
    (user_data : Option UserData) : ResponseData :=
  if page_context == "landing" then handle_landing_fallback query
  else if page_context == "registration" then handle_registration_fallback query user_data
  else emergency_fallback query page_context

/-- MentorIQGroqService._generate_suggestions (lines 383-409). -/
def generate_suggestions (query : String) (page_context : String)
    (ai_response : String) : List String :=
  if page_context == "landing" then
    let ql := lowerL query.data
    if ["parent", "child"].any (fun w => lcontains w.data ql) then parentSuggestions
    else if ["mentor", "teach"].any (fun w => lcontains w.data ql) then mentorSuggestions
    else defaultSuggestions
  else []

/-- Outcome of the one optional call to the external text-generation
collaborator: `none` when no client is configured, `some (Except.error ())`
when the call raises, `some (Except.ok s)` when it returns text `s`. -/
abbrev LlmOutcome := Option (Except Unit String)

/-- MentorIQGroqService.get_contextual_response together with
_generate_groq_response (lines 137-236), with the external call's outcome
passed explicitly. A missing client or a raised exception is caught and
answered by the deterministic fallback; a returned text is used verbatim.
The conversation history only feeds the prompt of the external call (its
last three turns), never the returned structure. -/
def get_contextual_response (llm : LlmOutcome) (query : String) (page_context : String)
    (user_data : Option UserData) (conversation_history : List (String × String)) : ResponseData :=
  match llm with
  | none => generate_fallback_response query page_context user_data
  | some (Except.error _) => generate_fallback_response query page_context user_data
  | some (Except.ok s) =>
    { response := s
      context := page_context
      suggestions := generate_suggestions query page_context s
      field_updates := if page_context == "registration" then extract_fields_from_query query else [] }

/-! ### Ollama service landing branch (ollama_service.py lines 325-417) -/

/-- Parent response of the ollama landing handler (lines 333-339). -/
def parentLandingO : String :=
  "Perfect! I'd love to help you find the ideal FLL program for your child. MentorIQ connects families with amazing mentors and teams in your area.\n\nOur AI-powered platform makes it easy to discover programs that match your child's interests, your schedule, and your location. We focus on finding mentors who not only teach robotics skills but also inspire creativity and teamwork.\n\nTo get started with personalized recommendations, I'd suggest completing our quick registration. This helps us understand your specific needs and preferences.\n\nWould you like me to guide you to registration, or do you have questions about specific programs?"

/-- Mentor response of the ollama landing handler (lines 352-364). -/
def mentorLandingO : String :=
  "Wonderful! We're always excited to connect with passionate educators and professionals who want to make a difference in students' lives.\n\nMentorIQ is designed to save mentors like you 60%+ of administrative time through AI-powered tools, so you can focus on what matters most - inspiring and guiding your students.\n\nOur platform helps you:\n- Streamline team management and progress tracking\n- Automate parent communications and scheduling\n- Access resources and best practices from successful mentors\n- Connect with families actively seeking quality mentoring\n\nWhether you're looking to start your first FLL team or enhance an existing program, we provide the tools and community support you need.\n\nReady to get started with your mentor profile?"

/-- General program response of the ollama landing handler (lines 377-393). -/
def programLandingO : String :=
  "Great question about FLL programs! MentorIQ connects you with high-quality FIRST LEGO League teams and mentors in your area.\n\nOur platform features:\n- AI-powered program matching based on your specific needs\n- Detailed mentor profiles with backgrounds and success stories\n- Transparent program information (schedules, costs, locations)\n- Real-time availability and enrollment status\n\nPrograms typically run from September through February, with weekly sessions focused on:\n- Robot building and programming\n- Research project development\n- Teamwork and presentation skills\n- Competition preparation\n\nTo see programs specifically matched to your needs and location, registration takes just 2 minutes and unlocks personalized recommendations.\n\nWhat specific aspects of FLL programs are you most curious about?"

/-- Default response of the ollama landing handler (lines 405-409). -/
def welcomeLandingO : String :=
  "Welcome to MentorIQ! I'm here to help you discover amazing FLL programs and mentors.\n\nWhether you're a parent looking for the perfect robotics program for your child, or a mentor ready to inspire the next generation of innovators, our AI-powered platform makes connections simple and effective.\n\nWhat brings you to MentorIQ today?"

/-- Suggestion list of the ollama general program branch. -/
def programSuggestionsO : List String :=
  ["Show me programs in my area", "What do programs typically cost?",
   "How do I choose the right mentor?", "Register for personalized matches"]

/-- MentorIQOllamaService._handle_landing_query (lines 325-417). The
parent branch requires both a family word and a find/program/team word;
when its inner condition fails control falls through to the mentor check. -/
def ollama_handle_landing_query (query : String) : ResponseData :=
  let ql := lowerL query.data
  if (["child", "kid", "son", "daughter", "parent"].any (fun w => lcontains w.data ql))
      && (["find", "program", "team"].any (fun w => lcontains w.data ql)) then
    { response := parentLandingO, field_updates := [],
      suggestions := parentSuggestions, context := "landing" }
  else if ["mentor", "teach", "coach", "lead", "engineer"].any (fun w => lcontains w.data ql) then
    { response := mentorLandingO, field_updates := [],
      suggestions := mentorSuggestions, context := "landing" }
  else if ["program", "team", "robotics", "fll"].any (fun w => lcontains w.data ql) then
    { response := programLandingO, field_updates := [],
      suggestions := programSuggestionsO, context := "landing" }
  else
    { response := welcomeLandingO, field_updates := [],
      suggestions := defaultSuggestions, context := "landing" }

/-- MentorIQOllamaService.get_contextual_response together with
_generate_enhanced_response (lines 154-323): the ollama service never calls
an external collaborator, its path is pure pattern matching. A page context
other than landing or registration returns the initial empty response
dict of _generate_enhanced_response. Neither the conversation history nor
the knowledge context influence the returned structure. -/
def ollama_get_contextual_response (query : String) (page_context : String)
    (user_data : Option UserData) (conversation_history : List (String × String)) : ResponseData :=
  if page_context == "landing" then ollama_handle_landing_query query
  else if page_context == "registration" then handle_registration_query query user_data
  else { response := "", suggestions := [], field_updates := [], context := page_context }

/-! ### The email grammar as the spec states it -/

/-- TLD of two or more letters, as §4.1 of the spec states. -/
def specTldOk (t : List Char) : Bool := decide (2 ≤ t.length) && t.all isAlphaA

/-- Modelled from the spec's words (§4.1/§8), for comparison with what
`extract_email` actually returns: the whole string is `local@domain.tld`
with an ASCII local part of letters/digits/`._%+-`, a domain of
letters/digits/`.-`, a dot, and a TLD of two or more letters. -/
def specEmailGrammar (s : String) : Bool :=
  let cs := s.data
  let loc := cs.takeWhile isLocalC
  match cs.drop loc.length with
  | '@' :: rest =>
    !loc.isEmpty &&
    (List.range rest.length).any (fun k =>
      k != 0 && rest.getD k ' ' == '.' &&
      (rest.take k).all isDomainC && specTldOk (rest.drop (k + 1)))
  | _ => false

/-! ## Helper lemmas -/

set_option maxRecDepth 8192

/-- The post-filter accepts no empty candidate. -/
lemma nameOk_ne_nil {n : List Char} (h : nameOk n = true) : n ≠ [] := by
  intro hnil
  subst hnil
  simp [nameOk] at h

/-- A value produced by the whole-line branch passed the post-filter. -/
lemma nameFromWholeLine_ok {t n : List Char} (h : nameFromWholeLine t = some n) :
    nameOk n = true := by
  unfold nameFromWholeLine at h
  rcases hw : wholeLineGroup t with _ | g <;> rw [hw] at h
  · exact absurd h (by simp)
  · dsimp only at h
    split at h
    · cases h; assumption
    · exact absurd h (by simp)

/-- Every value `extract_name` produces passed the post-filter. -/
lemma extract_nameL_ok {t n : List Char} (h : extract_nameL t = some n) :
    nameOk n = true := by
  unfold extract_nameL at h
  rcases hs : searchNameGroup t with _ | g <;> rw [hs] at h
  · exact nameFromWholeLine_ok h
  · dsimp only at h
    split at h
    · cases h; assumption
    · exact nameFromWholeLine_ok h

/-- `extract_name` never returns the empty string, so Python's truthiness
test on its result is mere presence. -/
lemma extract_name_ne_empty {q v : String} (h : extract_name q = some v) : v ≠ "" := by
  unfold extract_name at h
  rcases hl : extract_nameL q.data with _ | n <;> rw [hl] at h
  · exact absurd h (by simp)
  · simp only [Option.map_some'] at h
    cases h
    intro hv
    exact nameOk_ne_nil (extract_nameL_ok hl) (by simpa using congrArg String.data hv)

/-- A successful anchored email match is nonempty (it contains the `@`). -/
lemma emailMatchAt_ne_nil {prev : Option Char} {s m : List Char}
    (h : emailMatchAt prev s = some m) : m ≠ [] := by
  unfold emailMatchAt at h
  split at h
  · dsimp only at h
    split at h
    · exact absurd h (by simp)
    · split at h
      · rcases Option.map_eq_some'.mp h with ⟨dt, _, rfl⟩
        simp
      · exact absurd h (by simp)
  · exact absurd h (by simp)

/-- A successful email search is nonempty. -/
lemma emailSearch_ne_nil {s : List Char} : ∀ {prev m}, emailSearch prev s = some m → m ≠ [] := by
  induction s with
  | nil => intro prev m h; simp [emailSearch] at h
  | cons c rest ih =>
    intro prev m h
    simp only [emailSearch] at h
    rcases he : emailMatchAt prev (c :: rest) with _ | m' <;> rw [he] at h
    · exact ih h
    · cases h; exact emailMatchAt_ne_nil he

/-- `extract_email` never returns the empty string. -/
lemma extract_email_ne_empty {q v : String} (h : extract_email q = some v) : v ≠ "" := by
  unfold extract_email at h
  rcases hl : emailSearch none q.data with _ | m <;> rw [hl] at h
  · exact absurd h (by simp)
  · simp only [Option.map_some'] at h
    cases h
    intro hv
    exact emailSearch_ne_nil hl (by simpa using congrArg String.data hv)

/-- `extract_user_type` only ever returns "parent" or "mentor". -/
lemma extract_user_type_values {q v : String} (h : extract_user_type q = some v) :
    v = "parent" ∨ v = "mentor" := by
  unfold extract_user_type at h
  dsimp only at h
  split at h
  · exact Or.inl (Option.some.inj h).symm
  · split at h
    · exact Or.inr (Option.some.inj h).symm
    · exact absurd h (by simp)

/-- On extractor results, truthiness coincides with presence. -/
lemma truthy_extract_name (q : String) : truthy (extract_name q) = (extract_name q).isSome := by
  rcases h : extract_name q with _ | n
  · rfl
  · simp [truthy, bne_iff_ne, extract_name_ne_empty h]

/-- On extractor results, truthiness coincides with presence. -/
lemma truthy_extract_email (q : String) : truthy (extract_email q) = (extract_email q).isSome := by
  rcases h : extract_email q with _ | e
  · rfl
  · simp [truthy, bne_iff_ne, extract_email_ne_empty h]

/-- On extractor results, truthiness coincides with presence. -/
lemma truthy_extract_user_type (q : String) :
    truthy (extract_user_type q) = (extract_user_type q).isSome := by
  rcases h : extract_user_type q with _ | t
  · rfl
  · rcases extract_user_type_values h with hv | hv <;> subst hv <;> rfl

/-- `extract_user_type` written as the branch it is. -/
lemma extract_user_type_eq (text : String) :
    extract_user_type text =
      (if parent_keywords.any (fun kw => lcontains kw.data (lowerL text.data)) then some "parent"
       else if mentor_keywords.any (fun kw => lcontains kw.data (lowerL text.data)) then some "mentor"
       else none) := rfl

/-! ## The claims -/

/-- C1, counterexample: the spec says `extract_name "hello there"` returns
nothing, but because `re.IGNORECASE` is applied to the whole-line pattern
too, the code returns "hello there". -/
theorem hello_there_counterexample :
    extract_name "hello there" = some "hello there" := by decide

/-- C1, amended: `extract_name "My name is Alex Rivera" = some "Alex Rivera"`;
`extract_name "ALEX" = some "ALEX"` via the whole-line fallback (the
trigger-phrase pattern finds no match on "ALEX"); but the whole-line
fallback, carrying IGNORECASE, accepts any line of words of two or more
letters, so `extract_name "hello there" = some "hello there"` rather than
nothing. -/
theorem extract_name_spec_examples :
    extract_name "My name is Alex Rivera" = some "Alex Rivera" ∧
    extract_name "ALEX" = some "ALEX" ∧
    searchNameGroup "ALEX".data = none ∧
    extract_name "hello there" = some "hello there" := by decide

/-- C2: for every utterance, `extract_user_type` returns "parent" exactly
when some parent keyword is a substring of the lower-cased text, otherwise
"mentor" exactly when some mentor keyword is, otherwise nothing — the
parent check is evaluated first — and on the spec's example with both
keyword kinds present it returns "parent". -/
theorem extract_user_type_keyword_priority (text : String) :
    (extract_user_type text = some "parent" ↔
      ∃ kw ∈ parent_keywords, lcontains kw.data (lowerL text.data) = true) ∧
    (extract_user_type text = some "mentor" ↔
      (¬ ∃ kw ∈ parent_keywords, lcontains kw.data (lowerL text.data) = true) ∧
      ∃ kw ∈ mentor_keywords, lcontains kw.data (lowerL text.data) = true) ∧
    (extract_user_type text = none ↔
      (¬ ∃ kw ∈ parent_keywords, lcontains kw.data (lowerL text.data) = true) ∧
      ¬ ∃ kw ∈ mentor_keywords, lcontains kw.data (lowerL text.data) = true) ∧
    extract_user_type "I'm a parent and an engineer" = some "parent" := by
  refine ⟨?_, ?_, ?_, by decide⟩ <;>
  · simp only [extract_user_type_eq, ← List.any_eq_true]
    cases parent_keywords.any (fun kw => lcontains kw.data (lowerL text.data)) <;>
      cases mentor_keywords.any (fun kw => lcontains kw.data (lowerL text.data)) <;>
      simp

/-- C3: the claim says every extracted email matches the spec's grammar
(TLD of two or more letters), but the source's TLD class `[A-Z|a-z]`
literally contains the bar, so on "a@b.c|x" the code returns a string
whose TLD is not letters — the regex class is a slip for `[A-Za-z]`. -/
theorem email_tld_bar_bug :
    extract_email "a@b.c|x" = some "a@b.c|x" ∧
    specEmailGrammar "a@b.c|x" = false := by decide

/-- C4: the claim says re-extracting a returned email yields the identical
string, but through the same `[A-Z|a-z]` slip the code can return an email
ending in a bar, and feeding it back drops that bar: on "a@b.cc|5" it
returns "a@b.cc|", which re-extracts as "a@b.cc". -/
theorem email_roundtrip_bug :
    extract_email "a@b.cc|5" = some "a@b.cc|" ∧
    extract_email "a@b.cc|" = some "a@b.cc" ∧
    extract_email "a@b.cc|" ≠ some "a@b.cc|" := by decide

/-- C5: composing the spec's registration utterance (collaborator absent)
yields exactly the three field updates and a response that is the name
greeting, then the educational-domain acknowledgement, then the
mentor-specific encouragement, in that order. -/
theorem compose_sam_registration_example :
    handle_registration_query "I'm Sam, sam@school.edu, and I'm a mentor" none =
      { response := nameAck "Sam" ++ eduAck "school.edu" ++ mentorEncouragement
        field_updates := [("name", "Sam"), ("email", "sam@school.edu"), ("userType", "mentor")]
        suggestions := []
        context := "registration" } := by decide

/-- C6: in a registration composition, a pair is in field_updates exactly
when the corresponding extractor returned a value on this turn's utterance,
under the keys name, email and userType and no other; the groq service's
_extract_fields_from_query computes the same list. -/
theorem field_updates_iff_extracted (query : String) (user_data : Option UserData)
    (k v : String) :
    ((k, v) ∈ (handle_registration_query query user_data).field_updates ↔
      (k = "name" ∧ extract_name query = some v) ∨
      (k = "email" ∧ extract_email query = some v) ∨
      (k = "userType" ∧ extract_user_type query = some v)) ∧
    extract_fields_from_query query = (handle_registration_query query user_data).field_updates := by
  constructor
  · have hfu : (handle_registration_query query user_data).field_updates =
        (if truthy (extract_name query) then [("name", optStr (extract_name query))] else [])
        ++ (if truthy (extract_email query) then [("email", optStr (extract_email query))] else [])
        ++ (if truthy (extract_user_type query) then [("userType", optStr (extract_user_type query))] else []) := rfl
    rw [hfu, truthy_extract_name, truthy_extract_email, truthy_extract_user_type]
    rcases hn : extract_name query with _ | n <;>
      rcases he : extract_email query with _ | e <;>
        rcases ht : extract_user_type query with _ | t <;>
          simp [optStr, List.mem_append, eq_comm]
  · rfl

/-- C7, counterexample: with the empty record (a record holding no name)
and an utterance from which nothing is extracted, the code answers the
generic filler, not the ask-for-name question, because Python treats the
empty dict like an absent one. -/
theorem empty_record_filler_counterexample :
    (handle_registration_query "ok?" (some [])).response = genericHelpMsg ∧
    genericHelpMsg ≠ askNameMsg := by decide

/-- C7, amended: when no field is extracted this turn, the reply follows
the fixed priority over user_state — non-empty record without a truthy
name: ask for the name; name but no email: ask for the email addressing
the user by name; name and email but no role: ask parent-or-mentor;
otherwise the generic filler, an absent or empty record yielding the
generic filler regardless — and in every case the almost-done completion
note is appended exactly when the record holds at least two truthy values. -/
theorem no_extraction_prompt_priority (query : String) (user_data : Option UserData)
    (hn : extract_name query = none) (he : extract_email query = none)
    (ht : extract_user_type query = none) :
    (handle_registration_query query user_data).response =
      (match user_data with
       | none => genericHelpMsg
       | some d =>
         if d.isEmpty then genericHelpMsg
         else if !truthy (pyGet d "name") then askNameMsg
         else if !truthy (pyGet d "email") then askEmailMsg (optStr (pyGet d "name"))
         else if !truthy (pyGet d "userType") then askRoleMsg
         else genericHelpMsg)
      ++ completionSuffix user_data := by
  have hresp : (handle_registration_query query user_data).response =
      noExtractionReply user_data ++ completionSuffix user_data := by
    simp [handle_registration_query, hn, he, ht, truthy]
  rw [hresp]
  rcases user_data with _ | d
  · rfl
  · simp only [noExtractionReply]
    cases hd : d.isEmpty <;>
      cases h1 : truthy (pyGet d "name") <;>
        cases h2 : truthy (pyGet d "email") <;>
          cases h3 : truthy (pyGet d "userType") <;>
            simp [hd, h1, h2, h3]

/-- C7, witness at a concrete input: record with only a name, utterance
extracting nothing — the reply asks for the email, addressing Sam. -/
theorem no_extraction_prompt_priority_witness :
    (handle_registration_query "ok?" (some [("name", "Sam")])).response =
      askEmailMsg "Sam" := by
  have h := no_extraction_prompt_priority "ok?" (some [("name", "Sam")])
    (by decide) (by decide) (by decide)
  rw [h]; decide

/-- C8, counterexample: when the collaborator succeeds with the empty
string, the groq service returns that empty response verbatim instead of
the deterministic template fallback the claim promises for empty results. -/
theorem empty_llm_result_counterexample :
    (get_contextual_response (some (Except.ok "")) "tell me about FLL" "landing" none []).response
      = "" ∧
    get_contextual_response (some (Except.ok "")) "tell me about FLL" "landing" none [] ≠
      generate_fallback_response "tell me about FLL" "landing" none := by decide

/-- C8, amended: compose never raises — it is a total function of its
inputs and the collaborator's outcome — and whenever that outcome is an
absent client or a raised exception it returns exactly the deterministic
template fallback; only an empty-but-successful result is passed through
as-is rather than falling back. -/
theorem collaborator_failure_falls_back (llm : LlmOutcome) (query page_context : String)
    (user_data : Option UserData) (hist : List (String × String))
    (h : llm = none ∨ llm = some (Except.error ())) :
    get_contextual_response llm query page_context user_data hist =
      generate_fallback_response query page_context user_data := by
  rcases h with h | h <;> subst h <;> rfl

/-- C8, witness at a concrete input: a raised collaborator call on the
landing page yields the landing template fallback. -/
theorem collaborator_failure_falls_back_witness :
    get_contextual_response (some (Except.error ())) "tell me about FLL" "landing" none [] =
      generate_fallback_response "tell me about FLL" "landing" none :=
  collaborator_failure_falls_back (some (Except.error ())) "tell me about FLL" "landing"
    none [] (Or.inr rfl)

/-- C9: with the collaborator absent both composers are pure functions of
the utterance, page context, user state and history, so two calls with
identical arguments return byte-identical ComposedResponse values. -/
theorem compose_idempotent (query page_context : String) (user_data : Option UserData)
    (hist : List (String × String)) :
    ollama_get_contextual_response query page_context user_data hist =
      ollama_get_contextual_response query page_context user_data hist ∧
    get_contextual_response none query page_context user_data hist =
      get_contextual_response none query page_context user_data hist :=
  ⟨rfl, rfl⟩

/-- C10: the trigger-phrase capture group accepts any run of letters and
spaces, so "I'm a parent" extracts the non-name "a parent"; the
registration composition records it under the name key and greets the user
by that string. -/
theorem trigger_pattern_captures_nonname :
    extract_name "I'm a parent" = some "a parent" ∧
    (handle_registration_fallback "I'm a parent" none).field_updates =
      [("name", "a parent"), ("userType", "parent")] ∧
    (handle_registration_fallback "I'm a parent" none).response =
      nameAck "a parent" ++ parentShort := by decide

end MentorIQ
